import Mathlib

/-!
Shallow embedding of the browserbase-same verification engine
(src/unnamed/part_000: `testLogin` and its `main`; src/src/index.ts:
`main`, `testGoogleSearch`, `takeScreenshot`, `randomWait`).

Modelling conventions:
* Time is in whole milliseconds (`Nat`).
* A page is modelled by the first time each CSS selector appears
  (`appear : String -> Option Nat`); once present a selector stays present.
* A promise is modelled by its settle time together with its outcome
  (`Nat × Except String α`).  `page.waitForSelector(sel, {timeout})`
  fulfils one tick after the selector appears (a pending promise can
  never beat an already-settled one on the microtask queue) and rejects
  with a timeout error at the deadline otherwise.  `Promise.race` of two
  promises settles with whichever settles first; on an exact tie the
  promise listed first wins, matching subscription order.
* Fallible steps are `Except String` values; the run environment says
  which real-world steps fail and with what message.
-/

/-- Decidable equality of `Except` outcomes, so concrete runs can be
evaluated inside proofs. -/
instance {ε α : Type} [DecidableEq ε] [DecidableEq α] : DecidableEq (Except ε α)
  | Except.ok a, Except.ok b =>
      if h : a = b then isTrue (by rw [h])
      else isFalse (by intro hc; cases hc; exact h rfl)
  | Except.ok _, Except.error _ => isFalse (by intro hc; cases hc)
  | Except.error _, Except.ok _ => isFalse (by intro hc; cases hc)
  | Except.error a, Except.error b =>
      if h : a = b then isTrue (by rw [h])
      else isFalse (by intro hc; cases hc; exact h rfl)

/-- JavaScript `s.toLowerCase()`: lower-case the string character by
character. -/
def lowerString (s : String) : String := ⟨s.data.map Char.toLower⟩

/-- One login target, as the `LoginSite` interface of the source defines
it.  The optional `beforeLogin` callback is modelled by a flag saying
whether the site has one (its behaviour lives in the run environment). -/
structure LoginSite where
  name : String
  url : String
  usernameSelector : String
  passwordSelector : String
  submitSelector : String
  successIndicator : String
  failureIndicator : Option String
  username : String
  password : String
  hasBeforeLogin : Bool
deriving DecidableEq, Repr

/-- The observable DOM of one remote page: for each selector, the time
(ms after the check phase starts) at which it first appears, if ever. -/
structure PageEnv where
  appear : String → Option Nat

/-- `page.waitForSelector(sel, { timeout })`: settle time and outcome.
Fulfils at `t + 1` when the selector appears at `t` strictly before the
deadline, rejects with a timeout error at the deadline otherwise. -/
def waitForSelector (env : PageEnv) (sel : String) (timeout : Nat) :
    Nat × Except String Unit :=
  match env.appear sel with
  | some t =>
      if t < timeout then (t + 1, Except.ok ())
      else (timeout, Except.error ("TimeoutError: " ++ sel))
  | none => (timeout, Except.error ("TimeoutError: " ++ sel))

/-- `Promise.race([a, b])`: the earlier settler wins; the promise listed
first wins exact ties (its reaction was subscribed first). -/
def race2 {α : Type} (a b : Nat × Except String α) : Except String α :=
  if b.1 < a.1 then b.2 else a.2

/-- `await page.$(sel)` at time `now`: immediate, non-waiting presence
check. -/
def pollPresent (env : PageEnv) (sel : String) (now : Nat) : Bool :=
  match env.appear sel with
  | some t => t ≤ now
  | none => false

/-- The value carried by each branch of the login-result race. -/
structure RaceVal where
  success : Bool
  message : String
deriving DecidableEq, Repr

/-- The success branch of the race:
`page.waitForSelector(site.successIndicator, {timeout: 10000}).then(...)`. -/
def successEntry (page : PageEnv) (site : LoginSite) :
    Nat × Except String (Option RaceVal) :=
  let (t, r) := waitForSelector page site.successIndicator 10000
  (t, r.map (fun _ => some ⟨true, "Login successful"⟩))

/-- The second branch of the race: the failure-indicator wait when the
site defines one, and the already-settled `Promise.resolve(null)`
(settle time 0) otherwise. -/
def failureEntry (page : PageEnv) (site : LoginSite) :
    Nat × Except String (Option RaceVal) :=
  match site.failureIndicator with
  | some f =>
      let (t, r) := waitForSelector page f 10000
      (t, r.map (fun _ => some ⟨false, "Login failed - error message detected"⟩))
  | none => (0, Except.ok none)

/-- The result-checking phase of `testLogin` (source lines 122-147): race
the success wait against the failure wait (or against the immediately
resolved `null`), fall back to an immediate `page.$` poll when the race
yields `null`, and map any rejection of the race to an error message. -/
def checkLogin (page : PageEnv) (site : LoginSite) : Bool × String :=
  match race2 (successEntry page site) (failureEntry page site) with
  | Except.ok (some r) => (r.success, r.message)
  | Except.ok none =>
      let present := pollPresent page site.successIndicator 0
      (present,
        if present then "Login appears successful"
        else "Login status unclear - could not find success indicator")
  | Except.error e => (false, "Error checking login status: " ++ e)

/-- A selector never becomes present strictly within `timeout` ms. -/
def NeverWithin (page : PageEnv) (sel : String) (timeout : Nat) : Prop :=
  ∀ t, page.appear sel = some t → ¬ t < timeout

/-- The OrangeHRM target from the source configuration (it defines no
failure indicator). -/
def orangeHRM : LoginSite :=
  { name := "OrangeHRM"
    url := "https://opensource-demo.orangehrmlive.com/web/index.php/auth/login"
    usernameSelector := "input[name=username]"
    passwordSelector := "input[name=password]"
    submitSelector := "button[type=submit]"
    successIndicator := ".oxd-userdropdown"
    failureIndicator := none
    username := "Admin"
    password := "admin123"
    hasBeforeLogin := false }

/-- The OrangeHRM target with a failure indicator added, for exercising
the two-signal race. -/
def orangeHRMWithFailure : LoginSite :=
  { orangeHRM with failureIndicator := some ".oxd-alert" }

/-- A page on which no selector ever appears. -/
def emptyPage : PageEnv := ⟨fun _ => none⟩

/-- A page whose success indicator appears 2000 ms after submission and
on which nothing else ever appears. -/
def successAt2000 : PageEnv :=
  ⟨fun sel => if sel = ".oxd-userdropdown" then some 2000 else none⟩

/-- `path.join(a, b)` for the forward-slash paths this program builds. -/
def joinPath (a b : String) : String := a ++ "/" ++ b

/-- The screenshots directory the program creates at startup
(`path.join(process.cwd(), "screenshots")`, taken relative to the
working directory). -/
def screenshotsDir : String := "screenshots"

/-- The pre-submit screenshot path of `testLogin`:
`path.join(screenshotsDir, site.name.toLowerCase() + "-before-submit.png")`. -/
def preSubmitPath (site : LoginSite) : String :=
  joinPath screenshotsDir (lowerString site.name ++ "-before-submit.png")

/-- The `screenshotPath` computed at the top of `testLogin`:
`path.join(screenshotsDir, site.name.toLowerCase() + ".png")`.  It is
used both for the final screenshot and in the returned record. -/
def finalPath (site : LoginSite) : String :=
  joinPath screenshotsDir (lowerString site.name ++ ".png")

/-- A fallible real-world step: `none` means it succeeds, `some e` means
it throws with message `e`. -/
def stepRes : Option String → Except String Unit
  | none => Except.ok ()
  | some e => Except.error e

/-- `.catch(() => {})` on the navigation wait: every outcome becomes a
fulfilment. -/
def caughtNav : Except String Unit → Except String Unit
  | _ => Except.ok ()

/-- `Promise.all([p, q])` for two unit promises: rejects with the first
rejection, fulfils when both fulfil. -/
def promiseAll2 (p q : Except String Unit) : Except String Unit :=
  match p with
  | Except.error e => Except.error e
  | Except.ok _ => q

/-- The submit step of `testLogin` (source lines 112-115):
`Promise.all([page.waitForNavigation(...).catch(() => {}), page.click(...)])`. -/
def submitStep (nav click : Except String Unit) : Except String Unit :=
  promiseAll2 (caughtNav nav) click

/-- Which real-world steps of one `testLogin` run fail, and with what
message, plus the page the check phase observes. -/
structure RunEnv where
  createErr : Option String
  connectErr : Option String
  pagesErr : Option String
  viewportErr : Option String
  gotoErr : Option String
  beforeLoginErr : Option String
  userFieldErr : Option String
  passFieldErr : Option String
  preShotErr : Option String
  navErr : Option String
  clickErr : Option String
  finalShotErr : Option String
  errorShotErr : Option String
  closeErr : Option String
  page : PageEnv

/-- Observable process state threaded through a run: how many sessions
were acquired and released, and the screenshot paths written, in order. -/
structure World where
  acquired : Nat
  released : Nat
  writes : List String
deriving DecidableEq, Repr

/-- The record `testLogin` returns. -/
structure VResult where
  site : String
  success : Bool
  message : String
  screenshotPath : String
deriving DecidableEq, Repr

/-- The body of the `try` block of `testLogin` (source lines 85-159 up to
the final screenshot): navigate, optional pre-login steps, fill the two
fields, take the pre-submit screenshot, submit, run the check phase, take
the final screenshot; the first throw aborts the rest. -/
def tryBody (env : RunEnv) (site : LoginSite) (w : World) :
    World × Except String (Bool × String) :=
  match stepRes env.gotoErr with
  | Except.error e => (w, Except.error e)
  | Except.ok _ =>
  match (if site.hasBeforeLogin then stepRes env.beforeLoginErr else Except.ok ()) with
  | Except.error e => (w, Except.error e)
  | Except.ok _ =>
  match stepRes env.userFieldErr with
  | Except.error e => (w, Except.error e)
  | Except.ok _ =>
  match stepRes env.passFieldErr with
  | Except.error e => (w, Except.error e)
  | Except.ok _ =>
  match stepRes env.preShotErr with
  | Except.error e => (w, Except.error e)
  | Except.ok _ =>
  let w := { w with writes := w.writes ++ [preSubmitPath site] }
  match submitStep (stepRes env.navErr) (stepRes env.clickErr) with
  | Except.error e => (w, Except.error e)
  | Except.ok _ =>
  let sm := checkLogin env.page site
  match stepRes env.finalShotErr with
  | Except.error e => (w, Except.error e)
  | Except.ok _ => ({ w with writes := w.writes ++ [finalPath site] }, Except.ok sm)

/-- `testLogin` (source lines 49-181).  Session creation and connection,
page-handle acquisition and viewport setting happen before the
`try`/`catch`/`finally`; the `catch` converts a thrown step into a failed
result after a best-effort error screenshot; the `finally` closes the
browser.  A session is counted as acquired when `bb.sessions.create`
succeeds and as released when `browser.close()` succeeds. -/
def testLogin (env : RunEnv) (site : LoginSite) (w : World) :
    World × Except String VResult :=
  match stepRes env.createErr with
  | Except.error e => (w, Except.error e)
  | Except.ok _ =>
  let w := { w with acquired := w.acquired + 1 }
  match stepRes env.connectErr with
  | Except.error e => (w, Except.error e)
  | Except.ok _ =>
  match stepRes env.pagesErr with
  | Except.error e => (w, Except.error e)
  | Except.ok _ =>
  match stepRes env.viewportErr with
  | Except.error e => (w, Except.error e)
  | Except.ok _ =>
  let caught : World × VResult :=
    match tryBody env site w with
    | (w1, Except.ok sm) =>
        (w1, ⟨site.name, sm.1, sm.2, finalPath site⟩)
    | (w1, Except.error e) =>
        let w2 :=
          match env.errorShotErr with
          | none => { w1 with writes := w1.writes ++ [finalPath site] }
          | some _ => w1
        (w2, ⟨site.name, false, "Error testing login: " ++ e, finalPath site⟩)
  match env.closeErr with
  | none =>
      ({ caught.1 with released := caught.1.released + 1 }, Except.ok caught.2)
  | some e => (caught.1, Except.error e)

/-- The `main` of the login tester (source lines 183-213): for each site,
run `testLogin` inside a `try` whose `catch` only logs.  One slot per
site records the result `testLogin` returned, or `none` when it threw;
the source itself discards the returned records entirely. -/
def runMain : List (RunEnv × LoginSite) → World → World × List (Option VResult)
  | [], w => (w, [])
  | (env, site) :: rest, w =>
      let (w1, r) := testLogin env site w
      let slot := match r with
        | Except.ok v => some v
        | Except.error _ => none
      let (w2, slots) := runMain rest w1
      (w2, slot :: slots)

/-- The filename `takeScreenshot` builds (src/src/index.ts utility):
`name ++ "-" ++ timestamp ++ ".png"`, where `timestamp` is the ISO
instant with `:` and `.` replaced by `-` (distinct instants render to
distinct strings, since the replaced characters sit at fixed positions). -/
def screenshotFilename (name timestamp : String) : String :=
  name ++ "-" ++ timestamp ++ ".png"

/-- The full path `takeScreenshot` writes: `path.join(dir, filename)`. -/
def takeScreenshotPath (dir name timestamp : String) : String :=
  joinPath dir (screenshotFilename name timestamp)

/-- The delay `randomWait` computes:
`Math.floor(Math.random() * (max - min) + min)`, with `Math.random`
modelled by a rational `q` with `0 ≤ q < 1`. -/
def randomWaitTime (min max : ℤ) (q : ℚ) : ℤ :=
  ⌊q * ((max : ℚ) - (min : ℚ)) + (min : ℚ)⌋

/-- Which real-world steps of one `testGoogleSearch` run fail, and with
what message. -/
structure GoogleEnv where
  gotoErr : Option String
  hasTextarea : Bool
  hasInput : Bool
  clearErr : Option String
  typeErr : Option String
  queryShotErr : Option String
  pressErr : Option String
  navErr : Option String
  readyErr : Option String
  resultsShotErr : Option String
  extractErr : Option String
  hasResultLink : Bool
  clickNavErr : Option String
  resultShotErr : Option String
  scrollErr : Option String
  backErr : Option String
  errorShotErr : Option String

/-- The body of the `try` block of `testGoogleSearch` (src/src/index.ts
lines 90-204): navigate to Google, pick whichever of the two search
input surfaces is present, clear and type the query, screenshot, press
Enter, await navigation with the failure swallowed, await document
readiness, screenshot the results, extract titles, and - when a result
link is present - click it awaiting navigation (not swallowed), read,
scroll and go back. -/
def googleTryBody (env : GoogleEnv) : Except String Unit :=
  match stepRes env.gotoErr with
  | Except.error e => Except.error e
  | Except.ok _ =>
  match (if env.hasTextarea ∨ env.hasInput then Except.ok ()
         else Except.error "Could not find Google search input") with
  | Except.error e => Except.error e
  | Except.ok _ =>
  match stepRes env.clearErr with
  | Except.error e => Except.error e
  | Except.ok _ =>
  match stepRes env.typeErr with
  | Except.error e => Except.error e
  | Except.ok _ =>
  match stepRes env.queryShotErr with
  | Except.error e => Except.error e
  | Except.ok _ =>
  match stepRes env.pressErr with
  | Except.error e => Except.error e
  | Except.ok _ =>
  match caughtNav (stepRes env.navErr) with
  | Except.error e => Except.error e
  | Except.ok _ =>
  match stepRes env.readyErr with
  | Except.error e => Except.error e
  | Except.ok _ =>
  match stepRes env.resultsShotErr with
  | Except.error e => Except.error e
  | Except.ok _ =>
  match stepRes env.extractErr with
  | Except.error e => Except.error e
  | Except.ok _ =>
  if env.hasResultLink then
    match promiseAll2 (stepRes env.clickNavErr) (Except.ok ()) with
    | Except.error e => Except.error e
    | Except.ok _ =>
    match stepRes env.resultShotErr with
    | Except.error e => Except.error e
    | Except.ok _ =>
    match stepRes env.scrollErr with
    | Except.error e => Except.error e
    | Except.ok _ => stepRes env.backErr
  else Except.ok ()

/-- `testGoogleSearch` (src/src/index.ts lines 87-209): the `catch`
block logs the failure and then awaits `takeScreenshot(page,
"google-search-error")` with no guard of its own, so a failing
error-path capture is the rejection of the whole function. -/
def testGoogleSearch (env : GoogleEnv) : Except String Unit :=
  match googleTryBody env with
  | Except.ok _ => Except.ok ()
  | Except.error _ => stepRes env.errorShotErr

/-- A `testLogin` run environment in which every real-world step
succeeds against the given page. -/
def okEnv (page : PageEnv) : RunEnv :=
  { createErr := none, connectErr := none, pagesErr := none
    viewportErr := none, gotoErr := none, beforeLoginErr := none
    userFieldErr := none, passFieldErr := none, preShotErr := none
    navErr := none, clickErr := none, finalShotErr := none
    errorShotErr := none, closeErr := none, page := page }

/-- A `testGoogleSearch` environment in which every step succeeds. -/
def okGoogleEnv : GoogleEnv :=
  { gotoErr := none, hasTextarea := true, hasInput := false
    clearErr := none, typeErr := none, queryShotErr := none
    pressErr := none, navErr := none, readyErr := none
    resultsShotErr := none, extractErr := none, hasResultLink := true
    clickNavErr := none, resultShotErr := none, scrollErr := none
    backErr := none, errorShotErr := none }

/-- The empty starting state: no sessions acquired or released, nothing
written. -/
def world0 : World := ⟨0, 0, []⟩

/-- A page whose success indicator is present from time 0. -/
def successAt0 : PageEnv :=
  ⟨fun sel => if sel = ".oxd-userdropdown" then some 0 else none⟩

/-- A page injecting the success indicator at 2000 ms and the failure
indicator at 5000 ms. -/
def successFirstPage : PageEnv :=
  ⟨fun sel =>
    if sel = ".oxd-userdropdown" then some 2000
    else if sel = ".oxd-alert" then some 5000
    else none⟩

/-- A page injecting the failure indicator at 2000 ms and the success
indicator at 5000 ms. -/
def failureFirstPage : PageEnv :=
  ⟨fun sel =>
    if sel = ".oxd-userdropdown" then some 5000
    else if sel = ".oxd-alert" then some 2000
    else none⟩

/-- An otherwise healthy run in which `browser.pages()` rejects (the
remote connection drops right after connecting). -/
def pagesFailEnv : RunEnv :=
  { okEnv emptyPage with pagesErr := some "browser.pages failed" }

/-- An otherwise healthy run in which `bb.sessions.create` rejects. -/
def provisionFailEnv : RunEnv :=
  { okEnv emptyPage with createErr := some "ProvisioningError" }

/-- A run in which the final screenshot write fails on both the success
path and the error path. -/
def shotsFailEnv : RunEnv :=
  { okEnv successAt0 with
      finalShotErr := some "final screenshot failed"
      errorShotErr := some "error screenshot failed" }

/-- A `testGoogleSearch` run in which the initial navigation fails and
the error-path screenshot then also fails (the page is already gone). -/
def googleFailEnv : GoogleEnv :=
  { okGoogleEnv with
      gotoErr := some "net::ERR_CONNECTION_RESET at https://www.google.com"
      errorShotErr := some "Protocol error: Target closed" }



/-! ## Helper lemmas -/

theorem string_of_data_eq {s t : String} (h : s.data = t.data) : s = t := by
  cases s
  cases t
  exact congrArg String.mk (by simpa using h)

theorem race2_left {α : Type} (a b : Nat × Except String α) (h : ¬ b.1 < a.1) :
    race2 a b = a.2 := if_neg h

theorem race2_right {α : Type} (a b : Nat × Except String α) (h : b.1 < a.1) :
    race2 a b = b.2 := if_pos h

/-! ## The Outcome Arbiter (claims C1, C2, C3) -/

/-- C3.  Race fairness: when both signals are defined and one appears
strictly before the other (within the race budget), the first to appear
determines the verdict, whatever the loser does later.  The `tf + 1 <
10000` margin in the failure-first half reflects the one-tick settle
granularity of the embedding: a signal appearing in the very last
millisecond of the budget ties with the other wait's timeout timer. -/
theorem race_first_signal_wins :
    (∀ (page : PageEnv) (site : LoginSite) (f : String) (ts : Nat),
      site.failureIndicator = some f →
      page.appear site.successIndicator = some ts → ts < 10000 →
      (∀ tf, page.appear f = some tf → ts < tf) →
      checkLogin page site = (true, "Login successful")) ∧
    (∀ (page : PageEnv) (site : LoginSite) (f : String) (tf : Nat),
      site.failureIndicator = some f →
      page.appear f = some tf → tf + 1 < 10000 →
      (∀ ts, page.appear site.successIndicator = some ts → tf < ts) →
      checkLogin page site = (false, "Login failed - error message detected")) := by
  constructor
  · intro page site f ts hf hs hts hlater
    have hse : successEntry page site =
        (ts + 1, Except.ok (some ⟨true, "Login successful"⟩)) := by
      simp [successEntry, waitForSelector, hs, hts, Except.map]
    have hfe : ¬ (failureEntry page site).1 < ts + 1 := by
      rw [failureEntry, hf]
      cases hpf : page.appear f with
      | none =>
          simp only [waitForSelector, hpf]
          omega
      | some tf =>
          have h2 := hlater tf hpf
          simp only [waitForSelector, hpf]
          split
          · simp
            omega
          · simp
            omega
    rw [checkLogin, hse, race2_left _ _ (by simpa using hfe)]
  · intro page site f tf hf hpf htf hlater
    have htf10 : tf < 10000 := by omega
    have hfe : failureEntry page site =
        (tf + 1, Except.ok (some ⟨false, "Login failed - error message detected"⟩)) := by
      simp [failureEntry, hf, waitForSelector, hpf, htf10, Except.map]
    have hse : (failureEntry page site).1 < (successEntry page site).1 := by
      rw [hfe, successEntry]
      cases hps : page.appear site.successIndicator with
      | none =>
          simp only [waitForSelector, hps]
          omega
      | some ts =>
          have h2 := hlater ts hps
          simp only [waitForSelector, hps]
          split
          · simp
            omega
          · simp
            omega
    rw [checkLogin, race2_right _ _ hse, hfe]

/-- C3 witness: the reference scenario - success injected at 2000 ms,
failure at 5000 ms - yields the success verdict, and the mirrored
scenario yields the failure verdict. -/
theorem race_first_signal_wins_witness :
    checkLogin successFirstPage orangeHRMWithFailure = (true, "Login successful") ∧
    checkLogin failureFirstPage orangeHRMWithFailure =
      (false, "Login failed - error message detected") := by
  constructor
  · exact race_first_signal_wins.1 successFirstPage orangeHRMWithFailure
      ".oxd-alert" 2000 rfl rfl (by omega)
      (by
        intro tf h
        rw [show successFirstPage.appear ".oxd-alert" = some 5000 from by decide] at h
        injection h with h2
        omega)
  · exact race_first_signal_wins.2 failureFirstPage orangeHRMWithFailure
      ".oxd-alert" 2000 rfl rfl (by omega)
      (by
        intro ts h
        rw [show orangeHRMWithFailure.successIndicator = ".oxd-userdropdown" from rfl,
          show failureFirstPage.appear ".oxd-userdropdown" = some 5000 from by decide] at h
        injection h with h2
        omega)

/-- C1 counterexample: with a failure indicator defined and neither
indicator ever appearing, both waits reject at the 10000 ms deadline, so
the race rejects; `testLogin` then reports the caught error, not the
fallback poll verdict `Inconclusive("status unclear")` the claim
predicts for this input. -/
theorem arbiter_timeout_skips_fallback_poll :
    checkLogin emptyPage orangeHRMWithFailure =
      (false, "Error checking login status: TimeoutError: .oxd-userdropdown") ∧
    checkLogin emptyPage orangeHRMWithFailure ≠
      (false, "Login status unclear - could not find success indicator") ∧
    checkLogin emptyPage orangeHRMWithFailure ≠ (true, "Login appears successful") := by
  refine ⟨by decide, by decide, by decide⟩

/-- C1 amended: the fallback immediate poll runs exactly when the race
fulfils with `null`, which happens only when no failure signal is
defined (and then at once); when a failure signal is defined and
neither wait fulfils within the budget, the race rejects and the
arbiter instead reports `Inconclusive` with the caught error message. -/
theorem arbiter_fallback_only_without_failure_signal :
    (∀ (page : PageEnv) (site : LoginSite) (f : String),
      site.failureIndicator = some f →
      NeverWithin page site.successIndicator 10000 →
      NeverWithin page f 10000 →
      checkLogin page site =
        (false, "Error checking login status: " ++
          ("TimeoutError: " ++ site.successIndicator))) ∧
    (∀ (page : PageEnv) (site : LoginSite),
      site.failureIndicator = none →
      checkLogin page site =
        (pollPresent page site.successIndicator 0,
          if pollPresent page site.successIndicator 0 then "Login appears successful"
          else "Login status unclear - could not find success indicator")) := by
  constructor
  · intro page site f hf hns hnf
    have hse : successEntry page site =
        (10000, Except.error ("TimeoutError: " ++ site.successIndicator)) := by
      rw [successEntry]
      cases hps : page.appear site.successIndicator with
      | none => simp [waitForSelector, hps, Except.map]
      | some t =>
          have h2 := hns t hps
          simp [waitForSelector, hps, h2, Except.map]
    have hfe : ¬ (failureEntry page site).1 < 10000 := by
      rw [failureEntry, hf]
      cases hpf : page.appear f with
      | none => simp [waitForSelector, hpf]
      | some t =>
          have h2 := hnf t hpf
          simp [waitForSelector, hpf, h2]
    rw [checkLogin, hse, race2_left _ _ (by simpa using hfe)]
  · intro page site hf
    have hfe : failureEntry page site = (0, Except.ok none) := by
      rw [failureEntry, hf]
    have hlt : (failureEntry page site).1 < (successEntry page site).1 := by
      rw [hfe, successEntry]
      cases hps : page.appear site.successIndicator with
      | none => simp [waitForSelector, hps]
      | some t =>
          simp only [waitForSelector, hps]
          split
          · simp
          · simp
    rw [checkLogin, race2_right _ _ hlt, hfe]

/-- C1 amended witness, at the two concrete inputs: the all-timeout page
with a failure signal, and the delayed-success page without one. -/
theorem arbiter_fallback_only_without_failure_signal_witness :
    checkLogin emptyPage orangeHRMWithFailure =
      (false, "Error checking login status: " ++
        ("TimeoutError: " ++ orangeHRMWithFailure.successIndicator)) ∧
    checkLogin successAt2000 orangeHRM =
      (pollPresent successAt2000 orangeHRM.successIndicator 0,
        if pollPresent successAt2000 orangeHRM.successIndicator 0
        then "Login appears successful"
        else "Login status unclear - could not find success indicator") := by
  constructor
  · exact arbiter_fallback_only_without_failure_signal.1 emptyPage
      orangeHRMWithFailure ".oxd-alert" rfl
      (by intro t h; simp [emptyPage] at h)
      (by intro t h; simp [emptyPage] at h)
  · exact arbiter_fallback_only_without_failure_signal.2 successAt2000 orangeHRM rfl

/-- C2: with no failure indicator defined, the second racer is the
already-settled `Promise.resolve(null)`, so the race yields `null`
immediately - it never waits for the success indicator.  On a page whose
success indicator appears 2000 ms after submit (well within the 10000 ms
budget), the immediate poll misses it and the verdict is the unclear
fallback instead of `SuccessSignalObserved`. -/
theorem degenerate_race_never_waits :
    failureEntry successAt2000 orangeHRM = (0, Except.ok none) ∧
    checkLogin successAt2000 orangeHRM =
      (false, "Login status unclear - could not find success indicator") := by
  refine ⟨by decide, by decide⟩

/-! ## Sessions, orchestration, capture (claims C4, C5, C6, C7, C8) -/

/-- C4.  Session creation and connection succeed, then `browser.pages()`
rejects: the failure happens before the `try`/`finally` of `testLogin`,
so `browser.close()` never runs - the run ends with one session acquired
and none released, and `testLogin` rejects instead of returning a
result. -/
theorem session_leaked_on_page_handle_failure :
    testLogin pagesFailEnv orangeHRM world0 =
      (⟨1, 0, []⟩, Except.error "browser.pages failed") := by
  decide

/-- C5 counterexample: a run over exactly one target whose session
provisioning fails produces no `VerificationResult` at all (the loop
slot is `none` and the list of produced results is empty), not the one
failed result per target the claim requires. -/
theorem no_result_for_provisioning_failure :
    (runMain [(provisionFailEnv, orangeHRM)] world0).2 = [none] ∧
    ((runMain [(provisionFailEnv, orangeHRM)] world0).2.filterMap id).length = 0 := by
  refine ⟨by decide, by decide⟩

/-- C5 amended: the loop always visits every target in order (one
outcome slot per target, never terminating early), and a target whose
pre-`try` phase (provisioning, connect, page handle, viewport) and
`browser.close()` all succeed always yields exactly one
`VerificationResult` from `testLogin`; targets failing before the `try`
block yield a logged error and no result. -/
theorem runMain_isolates_targets :
    (∀ (xs : List (RunEnv × LoginSite)) (w : World),
      ((runMain xs w).2).length = xs.length) ∧
    (∀ (env : RunEnv) (site : LoginSite) (w : World),
      env.createErr = none → env.connectErr = none → env.pagesErr = none →
      env.viewportErr = none → env.closeErr = none →
      ∃ v, (testLogin env site w).2 = Except.ok v) := by
  constructor
  · intro xs
    induction xs with
    | nil => intro w; rfl
    | cons p rest ih =>
        intro w
        obtain ⟨env, site⟩ := p
        rcases ht : testLogin env site w with ⟨w1, r⟩
        simp only [runMain, ht]
        cases r <;> simp [ih]
  · intro env site w h1 h2 h3 h4 h5
    simp only [testLogin, h1, h2, h3, h4, h5, stepRes]
    exact ⟨_, rfl⟩

/-- C5 amended witness: a two-target run with a provisioning failure
first still has two outcome slots, and a fully healthy target returns a
result. -/
theorem runMain_isolates_targets_witness :
    ((runMain [(provisionFailEnv, orangeHRM), (okEnv successAt0, orangeHRM)]
        world0).2).length = 2 ∧
    ∃ v, (testLogin (okEnv successAt0) orangeHRM world0).2 = Except.ok v :=
  ⟨runMain_isolates_targets.1 _ world0,
   runMain_isolates_targets.2 (okEnv successAt0) orangeHRM world0 rfl rfl rfl rfl rfl⟩

/-- C6.  In `testGoogleSearch` the error-path artifact capture is not
guarded: when the `try` body fails and the catch-block screenshot then
also fails, the whole function rejects with the capture error, which
both propagates and masks the original navigation error. -/
theorem error_path_capture_failure_propagates :
    testGoogleSearch googleFailEnv = Except.error "Protocol error: Target closed" ∧
    testGoogleSearch googleFailEnv ≠ Except.ok () ∧
    testGoogleSearch googleFailEnv ≠
      Except.error "net::ERR_CONNECTION_RESET at https://www.google.com" := by
  refine ⟨by decide, by decide, by decide⟩

/-- C7 counterexample: two executions with the same logical name in one
run (the same target twice) write the pre-submit and final screenshots
to the same timestamp-free paths, so the run's write sequence contains
duplicates and the second execution overwrites artifacts of the first. -/
theorem testLogin_artifact_paths_collide :
    (runMain [(okEnv successAt0, orangeHRM), (okEnv successAt0, orangeHRM)]
        world0).1.writes =
      [preSubmitPath orangeHRM, finalPath orangeHRM,
       preSubmitPath orangeHRM, finalPath orangeHRM] ∧
    ¬ ((runMain [(okEnv successAt0, orangeHRM), (okEnv successAt0, orangeHRM)]
        world0).1.writes).Nodup := by
  refine ⟨by decide, by decide⟩

/-- C7 amended: the utility `takeScreenshot` does derive its filename
from the logical name plus the capture timestamp, so two calls with the
same name at distinct timestamps store distinct paths; `testLogin`'s own
screenshot calls instead use fixed, timestamp-free per-site paths, which
same-named executions reuse and overwrite. -/
theorem takeScreenshot_paths_distinct :
    ∀ dir name t1 t2 : String, t1 ≠ t2 →
      takeScreenshotPath dir name t1 ≠ takeScreenshotPath dir name t2 := by
  intro dir name t1 t2 hne heq
  apply hne
  apply string_of_data_eq
  have h := congrArg String.data heq
  simp only [takeScreenshotPath, joinPath, screenshotFilename, String.data_append,
    List.append_assoc] at h
  have h1 := List.append_cancel_left h
  have h2 := List.append_cancel_left h1
  have h3 := List.append_cancel_left h2
  have h4 := List.append_cancel_left h3
  exact List.append_cancel_right h4

/-- C7 amended witness: two concrete capture timestamps one second apart
give distinct stored paths for the same logical name. -/
theorem takeScreenshot_paths_distinct_witness :
    takeScreenshotPath "screenshots" "google-search-query" "2025-10-11T00-00-00-000Z" ≠
      takeScreenshotPath "screenshots" "google-search-query" "2025-10-11T00-00-01-000Z" :=
  takeScreenshot_paths_distinct "screenshots" "google-search-query"
    "2025-10-11T00-00-00-000Z" "2025-10-11T00-00-01-000Z" (by decide)

/-- C8.  The submit step awaits the click together with the
navigation wait whose rejection is pre-caught, so its outcome is exactly
the click's outcome: a navigation failure or timeout alone never fails
the step, and both `testLogin` and `testGoogleSearch` behave identically
whether their swallowed navigation wait fails or succeeds. -/
theorem submit_navigation_failure_swallowed :
    (∀ nav click, submitStep nav click = click) ∧
    (∀ (env : RunEnv) (site : LoginSite) (w : World) (m : String),
      testLogin { env with navErr := some m } site w =
        testLogin { env with navErr := none } site w) ∧
    (∀ (genv : GoogleEnv) (m : String),
      testGoogleSearch { genv with navErr := some m } =
        testGoogleSearch { genv with navErr := none }) := by
  refine ⟨?_, ?_, ?_⟩
  · intro nav click
    rfl
  · intro env site w m
    rfl
  · intro genv m
    rfl

/-! ## Pacing and result paths (claims C9, C10) -/

/-- C9 counterexample: `minMs = maxMs = 1000` satisfies the claim's
`minMs ≤ maxMs`, yet the computed delay is exactly 1000, which is not
strictly below `maxMs` - the half-open interval `[1000, 1000)` is
empty. -/
theorem randomWait_equal_bounds_not_below_max :
    randomWaitTime 1000 1000 0 = 1000 ∧ ¬ randomWaitTime 1000 1000 0 < 1000 := by
  have h : randomWaitTime 1000 1000 0 = 1000 := by
    rw [randomWaitTime]
    norm_num
  exact ⟨h, by rw [h]; omega⟩

/-- C9 amended: for `0 ≤ q < 1` the delay is always at least `minMs`;
it is strictly below `maxMs` whenever `minMs < maxMs`, and it equals
`minMs` (so is not below `maxMs`) when the two bounds coincide. -/
theorem randomWait_bounds (min max : ℤ) (q : ℚ) (h0 : 0 ≤ q) (h1 : q < 1) :
    (min ≤ max → min ≤ randomWaitTime min max q) ∧
    (min < max → randomWaitTime min max q < max) ∧
    (min = max → randomWaitTime min max q = min) := by
  refine ⟨?_, ?_, ?_⟩
  · intro h
    rw [randomWaitTime, Int.le_floor]
    have hc : (min : ℚ) ≤ (max : ℚ) := by exact_mod_cast h
    nlinarith [mul_nonneg h0 (sub_nonneg.mpr hc)]
  · intro h
    rw [randomWaitTime, Int.floor_lt]
    have hc : (min : ℚ) < (max : ℚ) := by exact_mod_cast h
    nlinarith [mul_lt_mul_of_pos_right h1 (sub_pos.mpr hc)]
  · intro h
    subst h
    simp [randomWaitTime]

/-- C9 amended witness: the source's default call `randomWait(1000,
3000)` with the random draw 1/2 stays within `[1000, 3000)`. -/
theorem randomWait_bounds_witness :
    (1000 : ℤ) ≤ randomWaitTime 1000 3000 (1 / 2) ∧
      randomWaitTime 1000 3000 (1 / 2) < 3000 :=
  ⟨(randomWait_bounds 1000 3000 (1 / 2) (by norm_num) (by norm_num)).1 (by norm_num),
   ((randomWait_bounds 1000 3000 (1 / 2) (by norm_num) (by norm_num)).2).1 (by norm_num)⟩

/-- C10.  Every record `testLogin` returns carries the fixed,
timestamp-free path `screenshots/<lowercased site name>.png`, on the
success path and the error path alike; in particular when both the
final and the error screenshot writes fail, the returned record still
names that path even though nothing was written to it during the run. -/
theorem testLogin_returns_fixed_screenshot_path :
    (∀ (env : RunEnv) (site : LoginSite) (w w2 : World) (r : VResult),
      testLogin env site w = (w2, Except.ok r) →
      r.screenshotPath = joinPath screenshotsDir (lowerString site.name ++ ".png")) ∧
    (testLogin shotsFailEnv orangeHRM world0).2 =
      Except.ok ⟨"OrangeHRM", false, "Error testing login: final screenshot failed",
        "screenshots/orangehrm.png"⟩ ∧
    finalPath orangeHRM ∉ (testLogin shotsFailEnv orangeHRM world0).1.writes := by
  refine ⟨?_, by decide, by decide⟩
  intro env site w w2 r h
  simp only [testLogin] at h
  repeat' split at h
  all_goals simp_all [finalPath]
  all_goals obtain ⟨h1, h2⟩ := h
  all_goals subst h2
  all_goals rfl

/-- C10 witness: a healthy OrangeHRM run returns a record whose
`screenshotPath` is the fixed per-site path. -/
theorem testLogin_returns_fixed_screenshot_path_witness :
    (⟨"OrangeHRM", true, "Login appears successful",
        "screenshots/orangehrm.png"⟩ : VResult).screenshotPath =
      joinPath screenshotsDir (lowerString orangeHRM.name ++ ".png") :=
  testLogin_returns_fixed_screenshot_path.1 (okEnv successAt0) orangeHRM world0
    ⟨1, 1, [preSubmitPath orangeHRM, finalPath orangeHRM]⟩
    ⟨"OrangeHRM", true, "Login appears successful", "screenshots/orangehrm.png"⟩
    (by decide)
